import Mathlib

/-!
Shallow embedding of the WebAssembly out-of-bounds trap handler in
`src/node-v8.9.4/deps/v8/src/trap-handler/handler-inside.cc`.

Data that the `.cc` file uses but whose declarations live in headers not part
of the snapshot (`trap-handler.h`, `trap-handler-internal.h`,
`handler-shared.cc`) is modelled from the specification's data model: the
protected-instruction tables, the code ranges, the registry slots with null
tombstones, the per-thread `g_thread_in_wasm_code` flag and the blocked-signal
set.  Machine addresses are natural numbers; `uintptr_t` / 64-bit register
arithmetic wraps at `2 ^ 64`, made explicit by `wrapAddr`.
-/

namespace TrapHandler

/-- `uintptr_t` / 64-bit register arithmetic wraps at `2 ^ 64`. -/
def wrapAddr (a : Nat) : Nat := a % 2 ^ 64

/-- The designated memory-protection fault signal (Linux `SIGSEGV`). -/
def SIGSEGV : Nat := 11

/-- Linux `si_code` for a signal sent by `kill`. -/
def SI_USER : Int := 0

/-- Linux `si_code` for a signal sent by `sigqueue`. -/
def SI_QUEUE : Int := -1

/-- Linux `si_code` for timer expiry. -/
def SI_TIMER : Int := -2

/-- Linux `si_code` for message-queue state change. -/
def SI_MESGQ : Int := -3

/-- Linux `si_code` for asynchronous I/O completion. -/
def SI_ASYNCIO : Int := -4

/-- The fault-classification data the handler reads: `siginfo_t`, restricted
to the one field the code consults, `si_code`. -/
structure siginfo_t where
  si_code : Int
deriving DecidableEq

/-- `IsKernelGeneratedSignal` (handler-inside.cc, lines 40-44): the fault is
kernel-generated iff `si_code > 0` and it is none of the software origins. -/
def IsKernelGeneratedSignal (info : siginfo_t) : Bool :=
  decide (0 < info.si_code) && (info.si_code != SI_USER) &&
    (info.si_code != SI_QUEUE) && (info.si_code != SI_TIMER) &&
    (info.si_code != SI_ASYNCIO) && (info.si_code != SI_MESGQ)

/-- Modelled from the spec: `ProtectedInstructionData` — a protected
instruction `{instr_offset, landing_offset}`, both integer offsets from the
range base (declared in `trap-handler.h`, which is not in the snapshot). -/
structure ProtectedInstructionData where
  instr_offset : Nat
  landing_offset : Nat
deriving DecidableEq

/-- Modelled from the spec: `CodeProtectionInfo` — a live code range
`{base, size, protected_instructions}` (declared in `trap-handler.h`,
which is not in the snapshot).  `num_protected_instructions` is the length
of `instructions`. -/
structure CodeProtectionInfo where
  base : Nat
  size : Nat
  instructions : List ProtectedInstructionData
deriving DecidableEq

/-- Modelled from the spec: the registry `gCodeObjects[0 .. gNumCodeObjects)`,
a collection of slots whose `code_info` pointer is null for a tombstoned
(freed) range.  A slot is `none` for a tombstone, `some info` when live. -/
abbrev CodeRegistry : Type := List (Option CodeProtectionInfo)

/-- A fault address lies in a live range's interval `[base, base + size)`
(spec §3: a range covers the addresses from `base` to `base + size`). -/
def containsAddr (d : CodeProtectionInfo) (a : Nat) : Prop :=
  d.base ≤ a ∧ a < d.base + d.size

instance (d : CodeProtectionInfo) (a : Nat) : Decidable (containsAddr d a) :=
  inferInstanceAs (Decidable (_ ∧ _))

/-- Two live ranges are disjoint: one ends no later than the other begins
(spec §3: "Ranges must be pairwise disjoint while live"). -/
def disjointRanges (d e : CodeProtectionInfo) : Prop :=
  d.base + d.size ≤ e.base ∨ e.base + e.size ≤ d.base

instance (d e : CodeProtectionInfo) : Decidable (disjointRanges d e) :=
  inferInstanceAs (Decidable (_ ∨ _))

/-- The OS-captured machine context; we model the one register the handler
reads and writes, the resume instruction pointer
`context->uc_mcontext.gregs[REG_RIP]`. -/
structure ucontext_t where
  rip : Nat
deriving DecidableEq

/-- Modelled from the spec: the faulting thread's state outside the machine
context — the per-thread `g_thread_in_wasm_code` flag (the
SandboxExecutionFlag, read through `IsThreadInWasm()`) and the thread's
blocked-signal set (`sigset_t`, modelled as the set of blocked signal
numbers). -/
structure ThreadState where
  thread_in_wasm_code : Bool
  blocked : Finset Nat
deriving DecidableEq

/-- One observation of the interceptor's lock/flag state, used to state the
reentrancy invariant: whether the `MetadataLock` is held at that point, and
the thread's `g_thread_in_wasm_code` value there. -/
structure Snapshot where
  lockHeld : Bool
  flag : Bool
deriving DecidableEq

/-- Inner loop of `TryHandleSignal` (lines 124-132): scan the range's
protected-instruction table in order for an entry with
`instr_offset == offset`; on the first hit, the new resume pointer is
`landing_offset + base`, stored into the 64-bit `REG_RIP` slot (wraps). -/
def scanInstructions (base offset : Nat) : List ProtectedInstructionData → Option Nat
  | [] => none
  | pi :: rest =>
    if pi.instr_offset = offset then some (wrapAddr (pi.landing_offset + base))
    else scanInstructions base offset rest

/-- The range test of the outer loop (line 118):
`fault_addr >= base && fault_addr < base + data->size`, with `base + size`
computed in `uintptr_t` (wraps at `2 ^ 64`). -/
def inRange (data : CodeProtectionInfo) (fault_addr : Nat) : Bool :=
  decide (data.base ≤ fault_addr) &&
    decide (fault_addr < wrapAddr (data.base + data.size))

/-- Outer loop of `TryHandleSignal` (lines 112-134), with the lock/flag trace:
slots are visited in order; a null (`tombstoned`) slot is skipped with
`continue`; for a live range containing the fault address the table is
scanned, and if the table misses the outer loop continues with the remaining
slots.  Every iteration runs with the `MetadataLock` held and the current
flag value `flag`; the second component records one `Snapshot` per visited
slot. -/
def scanRanges (flag : Bool) (fault_addr : Nat) : CodeRegistry → Option Nat × List Snapshot
  | [] => (none, [])
  | none :: rest =>
    let r := scanRanges flag fault_addr rest
    (r.1, ⟨true, flag⟩ :: r.2)
  | some data :: rest =>
    if inRange data fault_addr then
      match scanInstructions data.base (fault_addr - data.base) data.instructions with
      | some newRip => (some newRip, [⟨true, flag⟩])
      | none =>
        let r := scanRanges flag fault_addr rest
        (r.1, ⟨true, flag⟩ :: r.2)
    else
      let r := scanRanges flag fault_addr rest
      (r.1, ⟨true, flag⟩ :: r.2)

/-- The same scan on a registry from which the tombstones have been erased:
the domain contains no tombstone, so no tombstone can be dereferenced. -/
def scanLive (fault_addr : Nat) : List CodeProtectionInfo → Option Nat
  | [] => none
  | data :: rest =>
    if inRange data fault_addr then
      match scanInstructions data.base (fault_addr - data.base) data.instructions with
      | some newRip => some newRip
      | none => scanLive fault_addr rest
    else scanLive fault_addr rest

/-- The result of one invocation of the interceptor: the boolean outcome, the
(possibly rewritten) machine context, the thread's state on return, and the
chronological lock/flag trace of the resolve-under-lock step. -/
structure TryResult where
  handled : Bool
  ctx : ucontext_t
  st : ThreadState
  trace : List Snapshot
deriving DecidableEq

/-- Shallow embedding of `TryHandleSignal` (handler-inside.cc, lines 68-141).

In order: the signal filter (`signum != SIGSEGV`), the provenance filter
(`IsKernelGeneratedSignal`), the context filter (`IsThreadInWasm()`);
then `g_thread_in_wasm_code = false`; then the signal-mask scope
(`sigemptyset`/`sigaddset(SIGSEGV)`, `SigUnmaskStack` unblocks `SIGSEGV`
capturing the old mask); `fault_addr` is read from `REG_RIP`; the
`MetadataLock` is taken and the registry scanned.  On a match the new resume
pointer is written into the context and `true` returned — scope exit releases
the lock and restores the captured mask, and the flag stays `false`.  On no
match, scope exit releases the lock and restores the mask, then
`g_thread_in_wasm_code = true` and `false` is returned.  The trace appends
one post-release `Snapshot` to the scan's per-iteration snapshots. -/
def TryHandleSignal (signum : Nat) (info : siginfo_t) (ctx : ucontext_t)
    (reg : CodeRegistry) (st : ThreadState) : TryResult :=
  if signum ≠ SIGSEGV then
    ⟨false, ctx, st, []⟩
  else if !IsKernelGeneratedSignal info then
    ⟨false, ctx, st, []⟩
  else if !st.thread_in_wasm_code then
    ⟨false, ctx, st, []⟩
  else
    let st1 : ThreadState := { st with thread_in_wasm_code := false }
    let old_mask : Finset Nat := st1.blocked
    let st2 : ThreadState := { st1 with blocked := st1.blocked \ {SIGSEGV} }
    let fault_addr : Nat := ctx.rip
    let scan := scanRanges st2.thread_in_wasm_code fault_addr reg
    match scan.1 with
    | some newRip =>
      ⟨true, { ctx with rip := newRip }, { st2 with blocked := old_mask },
        scan.2 ++ [⟨false, st2.thread_in_wasm_code⟩]⟩
    | none =>
      ⟨false, ctx, { thread_in_wasm_code := true, blocked := old_mask },
        scan.2 ++ [⟨false, st2.thread_in_wasm_code⟩]⟩

/-- The observable actions of the dispatcher beyond the interceptor's result:
which signal (if any) had its disposition reset to the platform default
(`sigaction` with `SIG_DFL`), and which signal (if any) was re-raised on the
current thread (`raise`). -/
structure DispatchResult where
  result : TryResult
  installed_default : Option Nat
  raised : Option Nat
deriving DecidableEq

/-- Shallow embedding of `HandleSignal` (handler-inside.cc, lines 144-166):
invoke `TryHandleSignal`; if it did not handle the fault, install the default
disposition for `signum` and, when the signal was not kernel-generated,
`raise(signum)`; if it handled the fault, do neither. -/
def HandleSignal (signum : Nat) (info : siginfo_t) (ctx : ucontext_t)
    (reg : CodeRegistry) (st : ThreadState) : DispatchResult :=
  let r := TryHandleSignal signum info ctx reg st
  if r.handled then
    ⟨r, none, none⟩
  else
    ⟨r, some signum, if IsKernelGeneratedSignal info then none else some signum⟩

/-! ### Basic lemmas about the address arithmetic and the scans -/

theorem wrapAddr_le (a : Nat) : wrapAddr a ≤ a :=
  Nat.mod_le _ _

theorem wrapAddr_eq_of_lt {a : Nat} (h : a < 2 ^ 64) : wrapAddr a = a :=
  Nat.mod_eq_of_lt h

/-- The source's range test only accepts addresses inside the (unwrapped)
interval `[base, base + size)`. -/
theorem inRange_containsAddr {d : CodeProtectionInfo} {a : Nat}
    (h : inRange d a = true) : containsAddr d a := by
  unfold inRange at h
  simp only [Bool.and_eq_true, decide_eq_true_eq] at h
  exact ⟨h.1, lt_of_lt_of_le h.2 (wrapAddr_le _)⟩

/-- Disjoint ranges share no address. -/
theorem disjointRanges_not_both {d e : CodeProtectionInfo} {a : Nat}
    (hde : disjointRanges d e) (hd : containsAddr d a) (he : containsAddr e a) :
    False := by
  rcases hd with ⟨hd1, hd2⟩
  rcases he with ⟨he1, he2⟩
  rcases hde with h | h <;> omega

/-- Membership in the tombstone-erased registry. -/
theorem mem_filterMap_id {R : CodeProtectionInfo} {reg : CodeRegistry} :
    R ∈ reg.filterMap id ↔ some R ∈ reg := by
  simp only [List.mem_filterMap, id]
  exact ⟨fun ⟨x, hx, he⟩ => he ▸ hx, fun h => ⟨some R, h, rfl⟩⟩

/-- The scan's outcome is computed on the live ranges only: the registry scan
factors through erasure of the tombstoned slots. -/
theorem scanRanges_fst_eq_scanLive (flag : Bool) (a : Nat) (reg : CodeRegistry) :
    (scanRanges flag a reg).1 = scanLive a (reg.filterMap id) := by
  induction reg with
  | nil => rfl
  | cons slot rest ih =>
    cases slot with
    | none => simp [scanRanges, scanLive, ih]
    | some data =>
      simp only [scanRanges, scanLive, List.filterMap_cons_some, id]
      split
      · split <;> simp [scanLive, ih]
      · simpa [scanLive] using ih

/-- Every snapshot taken during the registry scan has the lock held and the
flag value the thread had when the lock was acquired. -/
theorem mem_scanRanges_snd {flag : Bool} {a : Nat} {reg : CodeRegistry}
    {s : Snapshot} (h : s ∈ (scanRanges flag a reg).2) : s = ⟨true, flag⟩ := by
  induction reg with
  | nil => simp [scanRanges] at h
  | cons slot rest ih =>
    cases slot with
    | none =>
      simp only [scanRanges, List.mem_cons] at h
      rcases h with h | h
      · exact h
      · exact ih h
    | some data =>
      simp only [scanRanges] at h
      split at h
      · split at h
        · simp only [List.mem_singleton] at h
          exact h
        · simp only [List.mem_cons] at h
          rcases h with h | h
          · exact h
          · exact ih h
      · simp only [List.mem_cons] at h
        rcases h with h | h
        · exact h
        · exact ih h

/-- If no table entry has the faulting offset, the inner scan misses. -/
theorem scanInstructions_eq_none {base offset : Nat}
    {instrs : List ProtectedInstructionData}
    (h : ∀ pi ∈ instrs, pi.instr_offset ≠ offset) :
    scanInstructions base offset instrs = none := by
  induction instrs with
  | nil => rfl
  | cons pi rest ih =>
    have hpi := h pi (List.mem_cons_self _ _)
    simp only [scanInstructions, if_neg hpi]
    exact ih fun q hq => h q (List.mem_cons_of_mem _ hq)

/-- If `(o, l)` is in the table and every entry at offset `o` lands at `l`,
the inner scan returns the wrapped `l + base`. -/
theorem scanInstructions_found {base o l : Nat}
    {instrs : List ProtectedInstructionData}
    (hmem : (⟨o, l⟩ : ProtectedInstructionData) ∈ instrs)
    (huniq : ∀ pi ∈ instrs, pi.instr_offset = o → pi.landing_offset = l) :
    scanInstructions base o instrs = some (wrapAddr (l + base)) := by
  induction instrs with
  | nil => cases hmem
  | cons pi rest ih =>
    by_cases hpi : pi.instr_offset = o
    · have hl : pi.landing_offset = l := huniq pi (List.mem_cons_self _ _) hpi
      simp [scanInstructions, hpi, hl]
    · have hmem' : (⟨o, l⟩ : ProtectedInstructionData) ∈ rest := by
        rcases List.mem_cons.mp hmem with h | h
        · exact absurd (congrArg ProtectedInstructionData.instr_offset h.symm) hpi
        · exact h
      simp only [scanInstructions, if_neg hpi]
      exact ih hmem' fun q hq => huniq q (List.mem_cons_of_mem _ hq)

/-- If the fault address is outside every live range, the scan misses. -/
theorem scanLive_eq_none_of_outside {a : Nat} {lives : List CodeProtectionInfo}
    (h : ∀ d ∈ lives, ¬ containsAddr d a) :
    scanLive a lives = none := by
  induction lives with
  | nil => rfl
  | cons d rest ih =>
    have hd : inRange d a = false := by
      cases hr : inRange d a
      · rfl
      · exact absurd (inRange_containsAddr hr) (h d (List.mem_cons_self _ _))
    simp only [scanLive, hd, Bool.false_eq_true, if_false]
    exact ih fun e he => h e (List.mem_cons_of_mem _ he)

/-- With pairwise-disjoint live ranges, if the range `R` containing the fault
address passes the source's range test and its table resolves to `v`, the
whole scan resolves to `v`. -/
theorem scanLive_found {a : Nat} {lives : List CodeProtectionInfo}
    {R : CodeProtectionInfo} {v : Nat}
    (hdisj : lives.Pairwise disjointRanges)
    (hR : R ∈ lives)
    (hin : inRange R a = true)
    (hscan : scanInstructions R.base (a - R.base) R.instructions = some v) :
    scanLive a lives = some v := by
  induction lives with
  | nil => cases hR
  | cons d rest ih =>
    rcases List.pairwise_cons.mp hdisj with ⟨hdrest, hrest⟩
    by_cases hmem : R ∈ rest
    · have hd : inRange d a = false := by
        cases hr : inRange d a
        · rfl
        · exact (disjointRanges_not_both (hdrest R hmem)
            (inRange_containsAddr hr) (inRange_containsAddr hin)).elim
      simp only [scanLive, hd, Bool.false_eq_true, if_false]
      exact ih hrest hmem
    · have hdR : d = R := by
        rcases List.mem_cons.mp hR with h | h
        · exact h.symm
        · exact absurd h hmem
      subst hdR
      simp [scanLive, hin, hscan]

/-- With pairwise-disjoint live ranges, if the fault address lies in some
live range whose table has no entry at the faulting offset, the scan misses
(the inner miss falls through to the remaining — disjoint — ranges). -/
theorem scanLive_none_of_nomatch {a : Nat} {lives : List CodeProtectionInfo}
    {R : CodeProtectionInfo}
    (hdisj : lives.Pairwise disjointRanges)
    (hR : R ∈ lives)
    (hcont : containsAddr R a)
    (hno : ∀ pi ∈ R.instructions, pi.instr_offset ≠ a - R.base) :
    scanLive a lives = none := by
  induction lives with
  | nil => cases hR
  | cons d rest ih =>
    rcases List.pairwise_cons.mp hdisj with ⟨hdrest, hrest⟩
    by_cases hmem : R ∈ rest
    · have hd : inRange d a = false := by
        cases hr : inRange d a
        · rfl
        · exact (disjointRanges_not_both (hdrest R hmem)
            (inRange_containsAddr hr) hcont).elim
      simp only [scanLive, hd, Bool.false_eq_true, if_false]
      exact ih hrest hmem
    · have hdR : d = R := by
        rcases List.mem_cons.mp hR with h | h
        · exact h.symm
        · exact absurd h hmem
      subst hdR
      have hrest_none : scanLive a rest = none :=
        scanLive_eq_none_of_outside fun e he hc =>
          disjointRanges_not_both (hdrest e he) hcont hc
      cases hr : inRange d a
      · simp only [scanLive, hr, Bool.false_eq_true, if_false]
        exact hrest_none
      · simp only [scanLive, hr, if_true,
          scanInstructions_eq_none hno]
        exact hrest_none

/-! ### Path lemmas for the interceptor -/

/-- Signal filter (lines 70-72): a non-`SIGSEGV` signal declines with no
state change and no lock activity. -/
theorem TryHandleSignal_wrong_signal {signum : Nat} (info : siginfo_t)
    (ctx : ucontext_t) (reg : CodeRegistry) (st : ThreadState)
    (h : signum ≠ SIGSEGV) :
    TryHandleSignal signum info ctx reg st = ⟨false, ctx, st, []⟩ := by
  simp [TryHandleSignal, h]

/-- Provenance filter (lines 75-77): a non-kernel-generated fault declines
with no state change and no lock activity. -/
theorem TryHandleSignal_not_kernel (signum : Nat) {info : siginfo_t}
    (ctx : ucontext_t) (reg : CodeRegistry) (st : ThreadState)
    (h : IsKernelGeneratedSignal info = false) :
    TryHandleSignal signum info ctx reg st = ⟨false, ctx, st, []⟩ := by
  by_cases h1 : signum = SIGSEGV <;> simp [TryHandleSignal, h1, h]

/-- Context filter (lines 80-82): a fault delivered while the flag is false
declines with no state change and no lock activity. -/
theorem TryHandleSignal_not_in_wasm (signum : Nat) (info : siginfo_t)
    (ctx : ucontext_t) (reg : CodeRegistry) {st : ThreadState}
    (h : st.thread_in_wasm_code = false) :
    TryHandleSignal signum info ctx reg st = ⟨false, ctx, st, []⟩ := by
  by_cases h1 : signum = SIGSEGV <;>
    by_cases h2 : IsKernelGeneratedSignal info = true <;>
      simp [TryHandleSignal, h1, h2, h]

/-- Main path (lines 84-140): all filters passed, flag cleared, `SIGSEGV`
unmasked, lock taken, registry scanned; the outcome is decided by the scan,
and on both exits the lock is released and the captured mask restored. -/
theorem TryHandleSignal_main (info : siginfo_t) (ctx : ucontext_t)
    (reg : CodeRegistry) (st : ThreadState)
    (h2 : IsKernelGeneratedSignal info = true)
    (h3 : st.thread_in_wasm_code = true) :
    TryHandleSignal SIGSEGV info ctx reg st =
      match (scanRanges false ctx.rip reg).1 with
      | some newRip =>
        ⟨true, { ctx with rip := newRip }, ⟨false, st.blocked⟩,
          (scanRanges false ctx.rip reg).2 ++ [⟨false, false⟩]⟩
      | none =>
        ⟨false, ctx, ⟨true, st.blocked⟩,
          (scanRanges false ctx.rip reg).2 ++ [⟨false, false⟩]⟩ := by
  simp [TryHandleSignal, h2, h3]

/-- Exhaustive path analysis: either some filter declined (identity result,
no lock activity), or all filters passed and the outcome follows the
registry scan. -/
theorem TryHandleSignal_cases (signum : Nat) (info : siginfo_t)
    (ctx : ucontext_t) (reg : CodeRegistry) (st : ThreadState) :
    TryHandleSignal signum info ctx reg st = ⟨false, ctx, st, []⟩ ∨
    (signum = SIGSEGV ∧ IsKernelGeneratedSignal info = true ∧
      st.thread_in_wasm_code = true ∧
      TryHandleSignal signum info ctx reg st =
        match (scanRanges false ctx.rip reg).1 with
        | some newRip =>
          ⟨true, { ctx with rip := newRip }, ⟨false, st.blocked⟩,
            (scanRanges false ctx.rip reg).2 ++ [⟨false, false⟩]⟩
        | none =>
          ⟨false, ctx, ⟨true, st.blocked⟩,
            (scanRanges false ctx.rip reg).2 ++ [⟨false, false⟩]⟩) := by
  by_cases h1 : signum = SIGSEGV
  · by_cases h2 : IsKernelGeneratedSignal info = true
    · by_cases h3 : st.thread_in_wasm_code = true
      · subst h1
        exact Or.inr ⟨rfl, h2, h3, TryHandleSignal_main info ctx reg st h2 h3⟩
      · exact Or.inl (TryHandleSignal_not_in_wasm signum info ctx reg
          (by simpa using h3))
    · exact Or.inl (TryHandleSignal_not_kernel signum ctx reg st
        (by simpa using h2))
  · exact Or.inl (TryHandleSignal_wrong_signal info ctx reg st h1)

/-! ### Claim theorems -/

/-- C1, as stated, is false on the code at explicit inputs:
(a) a protected instruction whose `instr_offset` is not below the range size
(`(0x200 ↦ 0x50)` in range `[0x1000, 0x1100)`) — the fault at `R.base + o`
fails the in-range test and is declined, not resolved;
(b) a table with two entries at the same offset
(`[(0x10 ↦ 0x50), (0x10 ↦ 0x60)]`) — for the entry `(0x10, 0x60)` the claim
predicts resume pointer `0x1060`, but the code follows the first entry and
writes `0x1050`;
(c) a range whose `base + size` overflows `uintptr_t`
(`base = 2^64 - 8, size = 0x100`) — the wrapped bound makes the in-range
test fail, and a fault at `base + 4` is declined;
(d) a landing address `base + l` that overflows (`base = 2^64 - 0x100`,
`l = 0x200`) — the stored resume pointer is the wrapped value `0x100`, not
`base + l`. -/
theorem C1_counterexample :
    ((TryHandleSignal SIGSEGV ⟨1⟩ ⟨0x1000 + 0x200⟩
        [some ⟨0x1000, 0x100, [⟨0x200, 0x50⟩]⟩] ⟨true, ∅⟩).handled = false) ∧
    ((TryHandleSignal SIGSEGV ⟨1⟩ ⟨0x1000 + 0x10⟩
        [some ⟨0x1000, 0x100, [⟨0x10, 0x50⟩, ⟨0x10, 0x60⟩]⟩] ⟨true, ∅⟩).handled
        = true ∧
      (TryHandleSignal SIGSEGV ⟨1⟩ ⟨0x1000 + 0x10⟩
        [some ⟨0x1000, 0x100, [⟨0x10, 0x50⟩, ⟨0x10, 0x60⟩]⟩] ⟨true, ∅⟩).ctx.rip
        = 0x1050 ∧
      (0x1050 : Nat) ≠ 0x1000 + 0x60) ∧
    ((TryHandleSignal SIGSEGV ⟨1⟩ ⟨2 ^ 64 - 8 + 4⟩
        [some ⟨2 ^ 64 - 8, 0x100, [⟨4, 1⟩]⟩] ⟨true, ∅⟩).handled = false) ∧
    ((TryHandleSignal SIGSEGV ⟨1⟩ ⟨2 ^ 64 - 0x100 + 4⟩
        [some ⟨2 ^ 64 - 0x100, 0x10, [⟨4, 0x200⟩]⟩] ⟨true, ∅⟩).ctx.rip = 0x100 ∧
      (0x100 : Nat) ≠ 2 ^ 64 - 0x100 + 0x200) := by
  decide

/-- C1 (amended): for every registered live code range `R`, with
pairwise-disjoint live ranges and `R`'s interval fitting the address space
(`R.base + R.size < 2 ^ 64`), and every protected instruction `(o, l)` in
`R`'s table such that `o < R.size`, `l` is the landing offset of every table
entry at offset `o`, and `R.base + l` does not overflow: a fault whose
signal is `SIGSEGV`, classified as kernel-generated, delivered while the
thread's flag is true, at fault address `R.base + o`, returns handled = true
and sets the resume instruction pointer to `R.base + l`. -/
theorem C1_registered_fault_resolves (info : siginfo_t) (ctx : ucontext_t)
    (reg : CodeRegistry) (st : ThreadState) (R : CodeProtectionInfo) (o l : Nat)
    (hdisj : (reg.filterMap id).Pairwise disjointRanges)
    (hlive : some R ∈ reg)
    (hwf : R.base + R.size < 2 ^ 64)
    (hmem : (⟨o, l⟩ : ProtectedInstructionData) ∈ R.instructions)
    (huniq : ∀ pi ∈ R.instructions, pi.instr_offset = o → pi.landing_offset = l)
    (ho : o < R.size)
    (hl : R.base + l < 2 ^ 64)
    (hkernel : IsKernelGeneratedSignal info = true)
    (hflag : st.thread_in_wasm_code = true)
    (haddr : ctx.rip = R.base + o) :
    (TryHandleSignal SIGSEGV info ctx reg st).handled = true ∧
      (TryHandleSignal SIGSEGV info ctx reg st).ctx.rip = R.base + l := by
  have hin : inRange R ctx.rip = true := by
    unfold inRange
    rw [wrapAddr_eq_of_lt hwf]
    simp only [Bool.and_eq_true, decide_eq_true_eq]
    omega
  have hoff : ctx.rip - R.base = o := by omega
  have hinstr : scanInstructions R.base (ctx.rip - R.base) R.instructions
      = some (wrapAddr (l + R.base)) := by
    rw [hoff]
    exact scanInstructions_found hmem huniq
  have hfound : (scanRanges false ctx.rip reg).1 = some (wrapAddr (l + R.base)) := by
    rw [scanRanges_fst_eq_scanLive]
    exact scanLive_found hdisj (mem_filterMap_id.mpr hlive) hin hinstr
  have hwrap : wrapAddr (l + R.base) = R.base + l := by
    rw [Nat.add_comm l R.base]
    exact wrapAddr_eq_of_lt hl
  rw [TryHandleSignal_main info ctx reg st hkernel hflag, hfound, hwrap]
  exact ⟨rfl, rfl⟩

/-- C1 witness: the spec's scenario — range `[0x1000, 0x1100)` with protected
instruction `(0x10 ↦ 0x50)`, kernel-generated `SIGSEGV` at `0x1010`, flag
true — resolves with handled = true and resume pointer `0x1050`. -/
theorem C1_registered_fault_resolves_witness :
    (TryHandleSignal SIGSEGV ⟨1⟩ ⟨0x1010⟩
        [some ⟨0x1000, 0x100, [⟨0x10, 0x50⟩]⟩] ⟨true, ∅⟩).handled = true ∧
      (TryHandleSignal SIGSEGV ⟨1⟩ ⟨0x1010⟩
        [some ⟨0x1000, 0x100, [⟨0x10, 0x50⟩]⟩] ⟨true, ∅⟩).ctx.rip
        = 0x1000 + 0x50 :=
  C1_registered_fault_resolves ⟨1⟩ ⟨0x1010⟩
    [some ⟨0x1000, 0x100, [⟨0x10, 0x50⟩]⟩] ⟨true, ∅⟩
    ⟨0x1000, 0x100, [⟨0x10, 0x50⟩]⟩ 0x10 0x50
    (by decide) (by decide) (by decide) (by decide) (by decide) (by decide)
    (by decide) (by decide) (by decide) (by decide)

/-- C2: for every fault that passes the signal, provenance and context
filters, with the registry's pairwise-disjointness invariant: if the fault
address lies inside some registered live range but equals no protected
`instr_offset` of that range, or lies outside every registered live range,
the interceptor returns handled = false. -/
theorem C2_no_match_declines (info : siginfo_t) (ctx : ucontext_t)
    (reg : CodeRegistry) (st : ThreadState)
    (hdisj : (reg.filterMap id).Pairwise disjointRanges)
    (hkernel : IsKernelGeneratedSignal info = true)
    (hflag : st.thread_in_wasm_code = true)
    (hcase :
      (∃ R, some R ∈ reg ∧ containsAddr R ctx.rip ∧
        ∀ pi ∈ R.instructions, pi.instr_offset ≠ ctx.rip - R.base) ∨
      (∀ R, some R ∈ reg → ¬ containsAddr R ctx.rip)) :
    (TryHandleSignal SIGSEGV info ctx reg st).handled = false := by
  have hnone : (scanRanges false ctx.rip reg).1 = none := by
    rw [scanRanges_fst_eq_scanLive]
    rcases hcase with ⟨R, hR, hcont, hno⟩ | hout
    · exact scanLive_none_of_nomatch hdisj (mem_filterMap_id.mpr hR) hcont hno
    · exact scanLive_eq_none_of_outside fun d hd => hout d (mem_filterMap_id.mp hd)
  rw [TryHandleSignal_main info ctx reg st hkernel hflag, hnone]

/-- C2 witness: the spec's scenario — fault at `0x1020` inside
`[0x1000, 0x1100)`, an unregistered offset — and the same fault against an
empty registry both yield handled = false. -/
theorem C2_no_match_declines_witness :
    (TryHandleSignal SIGSEGV ⟨1⟩ ⟨0x1020⟩
        [some ⟨0x1000, 0x100, [⟨0x10, 0x50⟩]⟩] ⟨true, ∅⟩).handled = false ∧
    (TryHandleSignal SIGSEGV ⟨1⟩ ⟨0x1020⟩ [] ⟨true, ∅⟩).handled = false :=
  ⟨C2_no_match_declines ⟨1⟩ ⟨0x1020⟩ [some ⟨0x1000, 0x100, [⟨0x10, 0x50⟩]⟩]
      ⟨true, ∅⟩ (by decide) (by decide) (by decide)
      (Or.inl ⟨⟨0x1000, 0x100, [⟨0x10, 0x50⟩]⟩, by decide, by decide, by decide⟩),
    C2_no_match_declines ⟨1⟩ ⟨0x1020⟩ [] ⟨true, ∅⟩ (by decide) (by decide)
      (by decide) (Or.inr fun R hR => absurd hR (List.not_mem_nil _))⟩

/-- C3: when the interceptor resolves a fault (handled = true) it leaves the
thread's flag false — it is not restored on the success path; when it
reaches the resolve-under-lock step and finds no match at range or
instruction level, it releases the lock (the final trace observation has the
lock free), restores the flag to true, and returns handled = false. -/
theorem C3_flag_discipline (signum : Nat) (info : siginfo_t)
    (ctx : ucontext_t) (reg : CodeRegistry) (st : ThreadState) :
    ((TryHandleSignal signum info ctx reg st).handled = true →
      (TryHandleSignal signum info ctx reg st).st.thread_in_wasm_code = false) ∧
    (signum = SIGSEGV → IsKernelGeneratedSignal info = true →
      st.thread_in_wasm_code = true →
      (scanRanges false ctx.rip reg).1 = none →
      (TryHandleSignal signum info ctx reg st).handled = false ∧
        (TryHandleSignal signum info ctx reg st).st.thread_in_wasm_code = true ∧
        ((TryHandleSignal signum info ctx reg st).trace).getLast? =
          some ⟨false, false⟩) := by
  constructor
  · intro h
    rcases TryHandleSignal_cases signum info ctx reg st with heq | ⟨h1, h2, h3, heq⟩
    · rw [heq] at h
      exact Bool.noConfusion h
    · rw [heq] at h ⊢
      cases hscan : (scanRanges false ctx.rip reg).1
      · rw [hscan] at h
        exact Bool.noConfusion h
      · rfl
  · intro h1 h2 h3 hnone
    subst h1
    rw [TryHandleSignal_main info ctx reg st h2 h3, hnone]
    refine ⟨rfl, rfl, ?_⟩
    simp

/-- C3 witness: on the spec's resolving scenario the flag is left false; on
the no-match scenario the fault is declined, the flag is restored to true
and the last lock observation shows the lock released. -/
theorem C3_flag_discipline_witness :
    (TryHandleSignal SIGSEGV ⟨1⟩ ⟨0x1010⟩
        [some ⟨0x1000, 0x100, [⟨0x10, 0x50⟩]⟩] ⟨true, ∅⟩).st.thread_in_wasm_code
      = false ∧
    ((TryHandleSignal SIGSEGV ⟨1⟩ ⟨0x1020⟩
        [some ⟨0x1000, 0x100, [⟨0x10, 0x50⟩]⟩] ⟨true, ∅⟩).handled = false ∧
      (TryHandleSignal SIGSEGV ⟨1⟩ ⟨0x1020⟩
        [some ⟨0x1000, 0x100, [⟨0x10, 0x50⟩]⟩] ⟨true, ∅⟩).st.thread_in_wasm_code
        = true ∧
      ((TryHandleSignal SIGSEGV ⟨1⟩ ⟨0x1020⟩
        [some ⟨0x1000, 0x100, [⟨0x10, 0x50⟩]⟩] ⟨true, ∅⟩).trace).getLast? =
          some ⟨false, false⟩) :=
  ⟨(C3_flag_discipline SIGSEGV ⟨1⟩ ⟨0x1010⟩
      [some ⟨0x1000, 0x100, [⟨0x10, 0x50⟩]⟩] ⟨true, ∅⟩).1 (by decide),
    (C3_flag_discipline SIGSEGV ⟨1⟩ ⟨0x1020⟩
      [some ⟨0x1000, 0x100, [⟨0x10, 0x50⟩]⟩] ⟨true, ∅⟩).2 rfl (by decide)
      (by decide) (by decide)⟩

/-- C4: on every exit path of the interceptor the thread's blocked-signal
set on return equals — bit for bit, for every signal — the set captured
before the unmask window was opened (the paths that never open the window
leave it untouched). -/
theorem C4_mask_restored (signum : Nat) (info : siginfo_t) (ctx : ucontext_t)
    (reg : CodeRegistry) (st : ThreadState) :
    (TryHandleSignal signum info ctx reg st).st.blocked = st.blocked := by
  rcases TryHandleSignal_cases signum info ctx reg st with heq | ⟨h1, h2, h3, heq⟩
  · rw [heq]
  · rw [heq]
    cases hscan : (scanRanges false ctx.rip reg).1
    · rfl
    · rfl

/-- C5: a fault that is not kernel-generated (per `IsKernelGeneratedSignal`:
`si_code` not positive, or one of the software origins `SI_USER`, `SI_QUEUE`,
`SI_TIMER`, asynchronous I/O, `SI_MESGQ`), or whose signal is not the
designated `SIGSEGV`, is declined — regardless of the fault address and the
registry. -/
theorem C5_provenance_filter (signum : Nat) (info : siginfo_t)
    (ctx : ucontext_t) (reg : CodeRegistry) (st : ThreadState)
    (h : IsKernelGeneratedSignal info = false ∨ signum ≠ SIGSEGV) :
    (TryHandleSignal signum info ctx reg st).handled = false := by
  rcases h with h | h
  · rw [TryHandleSignal_not_kernel signum ctx reg st h]
  · rw [TryHandleSignal_wrong_signal info ctx reg st h]

/-- C5 witness: a `SIGSEGV` raised by `kill` (`si_code = SI_USER`) at an
address that matches a registered protected instruction is still declined;
so is a non-`SIGSEGV` signal at that address. -/
theorem C5_provenance_filter_witness :
    (TryHandleSignal SIGSEGV ⟨0⟩ ⟨0x1010⟩
        [some ⟨0x1000, 0x100, [⟨0x10, 0x50⟩]⟩] ⟨true, ∅⟩).handled = false ∧
    (TryHandleSignal 4 ⟨1⟩ ⟨0x1010⟩
        [some ⟨0x1000, 0x100, [⟨0x10, 0x50⟩]⟩] ⟨true, ∅⟩).handled = false :=
  ⟨C5_provenance_filter SIGSEGV ⟨0⟩ ⟨0x1010⟩
      [some ⟨0x1000, 0x100, [⟨0x10, 0x50⟩]⟩] ⟨true, ∅⟩ (Or.inl (by decide)),
    C5_provenance_filter 4 ⟨1⟩ ⟨0x1010⟩
      [some ⟨0x1000, 0x100, [⟨0x10, 0x50⟩]⟩] ⟨true, ∅⟩ (Or.inr (by decide))⟩

/-- C6: a fault delivered while the faulting thread's flag
(`g_thread_in_wasm_code`) is false is declined, regardless of the fault
address and of the registry contents. -/
theorem C6_not_in_wasm_declines (signum : Nat) (info : siginfo_t)
    (ctx : ucontext_t) (reg : CodeRegistry) (st : ThreadState)
    (h : st.thread_in_wasm_code = false) :
    (TryHandleSignal signum info ctx reg st).handled = false := by
  rw [TryHandleSignal_not_in_wasm signum info ctx reg h]

/-- C6 witness: a kernel-generated `SIGSEGV` at a registered protected
address, delivered with the flag false, is declined. -/
theorem C6_not_in_wasm_declines_witness :
    (TryHandleSignal SIGSEGV ⟨1⟩ ⟨0x1010⟩
        [some ⟨0x1000, 0x100, [⟨0x10, 0x50⟩]⟩] ⟨false, ∅⟩).handled = false :=
  C6_not_in_wasm_declines SIGSEGV ⟨1⟩ ⟨0x1010⟩
    [some ⟨0x1000, 0x100, [⟨0x10, 0x50⟩]⟩] ⟨false, ∅⟩ (by decide)

/-- C7: for every fault the interceptor leaves unresolved, the dispatcher
installs the platform default disposition for the delivered fault signal;
then, if the fault was kernel-generated it raises nothing (it simply
returns, so re-execution re-faults into the default disposition), and if
it was not kernel-generated it re-raises the same signal on the current
thread; for every resolved fault it does neither. -/
theorem C7_fallback_dispatch (signum : Nat) (info : siginfo_t)
    (ctx : ucontext_t) (reg : CodeRegistry) (st : ThreadState) :
    (HandleSignal signum info ctx reg st).installed_default =
      (if (TryHandleSignal signum info ctx reg st).handled then none
       else some signum) ∧
    (HandleSignal signum info ctx reg st).raised =
      (if (TryHandleSignal signum info ctx reg st).handled then none
       else if IsKernelGeneratedSignal info then none else some signum) := by
  simp only [HandleSignal]
  cases h : (TryHandleSignal signum info ctx reg st).handled <;> simp [h]

/-- The interceptor's trace is empty (a filter declined before the lock) or
is the scan's lock-held snapshots followed by the post-release snapshot. -/
theorem TryHandleSignal_trace_cases (signum : Nat) (info : siginfo_t)
    (ctx : ucontext_t) (reg : CodeRegistry) (st : ThreadState) :
    (TryHandleSignal signum info ctx reg st).trace = [] ∨
    (TryHandleSignal signum info ctx reg st).trace =
      (scanRanges false ctx.rip reg).2 ++ [⟨false, false⟩] := by
  rcases TryHandleSignal_cases signum info ctx reg st with heq | ⟨h1, h2, h3, heq⟩
  · rw [heq]
    exact Or.inl rfl
  · rw [heq]
    cases hscan : (scanRanges false ctx.rip reg).1
    · exact Or.inr rfl
    · exact Or.inr rfl

/-- C8: reentrancy invariant of the fault-handling path — at every
observation point at which the registry lock is held, the thread's flag
(`g_thread_in_wasm_code`) is false: the interceptor clears the flag before
acquiring the lock and never sets it while the lock is held. -/
theorem C8_lock_only_with_flag_clear (signum : Nat) (info : siginfo_t)
    (ctx : ucontext_t) (reg : CodeRegistry) (st : ThreadState) (s : Snapshot)
    (hs : s ∈ (TryHandleSignal signum info ctx reg st).trace)
    (_hheld : s.lockHeld = true) :
    s.flag = false := by
  rcases TryHandleSignal_trace_cases signum info ctx reg st with htr | htr <;>
    rw [htr] at hs
  · exact absurd hs (List.not_mem_nil _)
  · simp only [List.mem_append, List.mem_singleton] at hs
    rcases hs with hs | hs
    · rw [mem_scanRanges_snd hs]
    · rw [hs]

/-- C8 witness: a concrete run whose trace contains the lock-held snapshot
`⟨true, false⟩`; the invariant yields its flag value. -/
theorem C8_lock_only_with_flag_clear_witness :
    (Snapshot.mk true false).flag = false :=
  C8_lock_only_with_flag_clear SIGSEGV ⟨1⟩ ⟨0x1010⟩
    [some ⟨0x1000, 0x100, [⟨0x10, 0x50⟩]⟩] ⟨true, ∅⟩ ⟨true, false⟩
    (by decide) rfl

/-- Erasing tombstones from an already-tombstone-free registry is the
identity. -/
theorem filterMap_id_map_some (lives : List CodeProtectionInfo) :
    (lives.map some).filterMap id = lives := by
  induction lives with
  | nil => rfl
  | cons x xs ih => simp [ih]

/-- C9: while scanning the registry under the lock, the interceptor skips
every tombstoned (null) slot and never dereferences it — for every registry
mixing live and tombstoned slots, the scan factors through erasure of the
tombstones, and the interceptor's outcome and returned context coincide with
those on the tombstone-free registry. -/
theorem C9_tombstones_skipped (flagv : Bool) (a : Nat) (signum : Nat)
    (info : siginfo_t) (ctx : ucontext_t) (reg : CodeRegistry)
    (st : ThreadState) :
    (scanRanges flagv a reg).1 = scanLive a (reg.filterMap id) ∧
    (TryHandleSignal signum info ctx reg st).handled =
      (TryHandleSignal signum info ctx ((reg.filterMap id).map some) st).handled ∧
    (TryHandleSignal signum info ctx reg st).ctx =
      (TryHandleSignal signum info ctx ((reg.filterMap id).map some) st).ctx := by
  refine ⟨scanRanges_fst_eq_scanLive flagv a reg, ?_⟩
  have hscan : (scanRanges false ctx.rip ((reg.filterMap id).map some)).1 =
      (scanRanges false ctx.rip reg).1 := by
    rw [scanRanges_fst_eq_scanLive, scanRanges_fst_eq_scanLive,
      filterMap_id_map_some]
  by_cases h1 : signum = SIGSEGV
  · subst h1
    by_cases h2 : IsKernelGeneratedSignal info = true
    · by_cases h3 : st.thread_in_wasm_code = true
      · rw [TryHandleSignal_main info ctx reg st h2 h3,
          TryHandleSignal_main info ctx ((reg.filterMap id).map some) st h2 h3,
          hscan]
        cases (scanRanges false ctx.rip reg).1 <;> exact ⟨rfl, rfl⟩
      · have h3' : st.thread_in_wasm_code = false := by simpa using h3
        rw [TryHandleSignal_not_in_wasm SIGSEGV info ctx reg h3',
          TryHandleSignal_not_in_wasm SIGSEGV info ctx
            ((reg.filterMap id).map some) h3']
        exact ⟨rfl, rfl⟩
    · have h2' : IsKernelGeneratedSignal info = false := by simpa using h2
      rw [TryHandleSignal_not_kernel SIGSEGV ctx reg st h2',
        TryHandleSignal_not_kernel SIGSEGV ctx ((reg.filterMap id).map some)
          st h2']
      exact ⟨rfl, rfl⟩
  · rw [TryHandleSignal_wrong_signal info ctx reg st h1,
      TryHandleSignal_wrong_signal info ctx ((reg.filterMap id).map some) st h1]
    exact ⟨rfl, rfl⟩

/-- C10: whenever the interceptor returns handled = false — on any decline
path — the FaultContext is left unchanged, in particular its resume
instruction pointer keeps its value from fault delivery; the resume pointer
is written only on the handled = true path. -/
theorem C10_context_unchanged_on_decline (signum : Nat) (info : siginfo_t)
    (ctx : ucontext_t) (reg : CodeRegistry) (st : ThreadState)
    (h : (TryHandleSignal signum info ctx reg st).handled = false) :
    (TryHandleSignal signum info ctx reg st).ctx = ctx ∧
      (TryHandleSignal signum info ctx reg st).ctx.rip = ctx.rip := by
  rcases TryHandleSignal_cases signum info ctx reg st with heq | ⟨h1, h2, h3, heq⟩
  · rw [heq]
    exact ⟨rfl, rfl⟩
  · rw [heq] at h ⊢
    cases hscan : (scanRanges false ctx.rip reg).1
    · exact ⟨rfl, rfl⟩
    · rw [hscan] at h
      exact Bool.noConfusion h

/-- C10 witness: the declined fault at `0x1020` leaves the context — and its
resume pointer — unchanged. -/
theorem C10_context_unchanged_on_decline_witness :
    (TryHandleSignal SIGSEGV ⟨1⟩ ⟨0x1020⟩
        [some ⟨0x1000, 0x100, [⟨0x10, 0x50⟩]⟩] ⟨true, ∅⟩).ctx =
        (⟨0x1020⟩ : ucontext_t) ∧
      (TryHandleSignal SIGSEGV ⟨1⟩ ⟨0x1020⟩
        [some ⟨0x1000, 0x100, [⟨0x10, 0x50⟩]⟩] ⟨true, ∅⟩).ctx.rip =
        (⟨0x1020⟩ : ucontext_t).rip :=
  C10_context_unchanged_on_decline SIGSEGV ⟨1⟩ ⟨0x1020⟩
    [some ⟨0x1000, 0x100, [⟨0x10, 0x50⟩]⟩] ⟨true, ∅⟩ (by decide)

end TrapHandler
